import Mathlib

/-!
Verification of the request-logger module (telegram.js): request metadata
extraction with geolocation fallback handling, MarkdownV2 escaping, and
Telegram notification delivery. Strings of the JS source are modelled as
Lean String or List Char; JS falsiness of strings (empty string is falsy)
is modelled explicitly; JS exceptions are modelled with Except.
-/

/-- The reserved MarkdownV2 characters, in the exact order in which the
source chains its global replacements inside escapeMarkdownV2. -/
def RESERVED : List Char :=
  ['_', '*', '[', ']', '(', ')', '~', '\x60', '>', '#', '+', '-', '=', '|',
   '\x7b', '\x7d', '.', '!']

/-- Character-wise expansion of a list of characters; used to model one
global regex replacement pass over a JS string. -/
def mapEsc (f : Char → List Char) : List Char → List Char
  | [] => []
  | x :: t => f x ++ mapEsc f t

/-- Models one global replacement pass text.replace of a single character
class c by a backslash followed by c. -/
def escRepl (c : Char) (l : List Char) : List Char :=
  mapEsc (fun x => if x = c then ['\\', c] else [x]) l

/-- The escapeMarkdownV2 helper of sendTele: eighteen sequential global
replacement passes, one per reserved character, in source order. -/
def escapeMarkdownV2 (l : List Char) : List Char :=
  RESERVED.foldl (fun acc c => escRepl c acc) l

/-- One reverse substitution pass: every backslash-c pair is replaced by c,
scanning left to right without overlap. -/
def unescRepl (c : Char) : List Char → List Char
  | [] => []
  | [x] => [x]
  | x :: y :: t =>
    if x = '\\' ∧ y = c then c :: unescRepl c t
    else x :: unescRepl c (y :: t)

/-- The inverse unescape of the spec: reverse each substitution of
escapeMarkdownV2, applying the passes in the opposite order. -/
def unescapeMarkdownV2 (l : List Char) : List Char :=
  RESERVED.reverse.foldl (fun acc c => unescRepl c acc) l

/-- Single-character escaping with respect to a set S of already-processed
reserved characters: a member of S carries a backslash prefix. -/
def escChar (S : List Char) (x : Char) : List Char :=
  if x ∈ S then ['\\', x] else [x]

/-- Checks that every reserved character in the list is immediately
preceded by a backslash; prev is the character just before the list. -/
def precededOK (prev : Option Char) : List Char → Bool
  | [] => true
  | x :: t =>
    (if x ∈ RESERVED then decide (prev = some '\\') else true) &&
      precededOK (some x) t

theorem mapEsc_append (f : Char → List Char) (a b : List Char) :
    mapEsc f (a ++ b) = mapEsc f a ++ mapEsc f b := by
  induction a with
  | nil => rfl
  | cons x t ih => simp [mapEsc, ih]

theorem mapEsc_escChar_nil (l : List Char) : mapEsc (escChar []) l = l := by
  induction l with
  | nil => rfl
  | cons x t ih => simp [mapEsc, escChar, ih]

theorem escChar_congr (S T : List Char) (h : ∀ x, x ∈ S ↔ x ∈ T) (x : Char) :
    escChar S x = escChar T x := by
  unfold escChar
  by_cases hx : x ∈ S
  · rw [if_pos hx, if_pos ((h x).mp hx)]
  · rw [if_neg hx, if_neg (fun hT => hx ((h x).mpr hT))]

theorem mapEsc_congr (f g : Char → List Char) (h : ∀ x, f x = g x)
    (l : List Char) : mapEsc f l = mapEsc g l := by
  induction l with
  | nil => rfl
  | cons x t ih => simp [mapEsc, h x, ih]

theorem escRepl_mapEsc (c : Char) (S : List Char) (hcS : c ∉ S)
    (hc : c ≠ '\\') (l : List Char) :
    escRepl c (mapEsc (escChar S) l) = mapEsc (escChar (c :: S)) l := by
  induction l with
  | nil => rfl
  | cons x t ih =>
    show escRepl c (escChar S x ++ mapEsc (escChar S) t) = _
    rw [show escRepl c (escChar S x ++ mapEsc (escChar S) t)
          = escRepl c (escChar S x) ++ escRepl c (mapEsc (escChar S) t)
        from mapEsc_append _ _ _, ih]
    show escRepl c (escChar S x) ++ mapEsc (escChar (c :: S)) t
        = escChar (c :: S) x ++ mapEsc (escChar (c :: S)) t
    congr 1
    by_cases hmem : x ∈ S
    · have hxc : x ≠ c := fun h => hcS (h ▸ hmem)
      have hbc : ('\\' : Char) ≠ c := Ne.symm hc
      simp [escChar, escRepl, mapEsc, hmem, hxc, hbc,
        List.mem_cons, Or.inr hmem]
    · by_cases hxc : x = c
      · subst hxc
        simp [escChar, escRepl, mapEsc, hmem, List.mem_cons]
      · simp [escChar, escRepl, mapEsc, hmem, hxc, List.mem_cons]

theorem escape_fold (cs : List Char) : ∀ (S l : List Char), cs.Nodup →
    (∀ c ∈ cs, c ∉ S) → '\\' ∉ cs →
    cs.foldl (fun acc c => escRepl c acc) (mapEsc (escChar S) l)
      = mapEsc (escChar (cs.reverse ++ S)) l := by
  induction cs with
  | nil => intro S l _ _ _; rfl
  | cons c rest ih =>
    intro S l hnd hdis hb
    have hcS : c ∉ S := hdis c (List.mem_cons_self c rest)
    have hcb : c ≠ '\\' := fun h => hb (h ▸ List.mem_cons_self c rest)
    show rest.foldl (fun acc c => escRepl c acc)
        (escRepl c (mapEsc (escChar S) l)) = _
    rw [escRepl_mapEsc c S hcS hcb l]
    rw [ih (c :: S) l (List.Nodup.of_cons hnd)
      (fun d hd => by
        intro hmem
        rcases List.mem_cons.mp hmem with h1 | h2
        · exact (List.nodup_cons.mp hnd).1 (h1 ▸ hd)
        · exact hdis d (List.mem_cons_of_mem c hd) h2)
      (fun h => hb (List.mem_cons_of_mem c h))]
    congr 1
    simp [List.reverse_cons, List.append_assoc]

/-- Character-wise characterization of escapeMarkdownV2: the eighteen
sequential passes act exactly like a single pass that prefixes every
reserved character with a backslash. -/
theorem escapeMarkdownV2_eq (l : List Char) :
    escapeMarkdownV2 l = mapEsc (escChar RESERVED) l := by
  have h1 := escape_fold RESERVED [] l (by decide)
    (fun c _ => List.not_mem_nil c) (by decide)
  rw [mapEsc_escChar_nil] at h1
  show RESERVED.foldl (fun acc c => escRepl c acc) l = _
  rw [h1]
  exact mapEsc_congr (escChar (RESERVED.reverse ++ [])) (escChar RESERVED)
    (escChar_congr (RESERVED.reverse ++ []) RESERVED
      (fun x => by simp [List.append_nil, List.mem_reverse])) l

theorem unescRepl_cons (c x : Char) (l : List Char) (hx : x ≠ '\\') :
    unescRepl c (x :: l) = x :: unescRepl c l := by
  cases l with
  | nil => rfl
  | cons y t =>
    show (if x = '\\' ∧ y = c then c :: unescRepl c t
      else x :: unescRepl c (y :: t)) = _
    rw [if_neg (fun h => hx h.1)]

theorem unescRepl_pair (c y : Char) (l : List Char) :
    unescRepl c ('\\' :: y :: l)
      = if y = c then c :: unescRepl c l else '\\' :: unescRepl c (y :: l) := by
  by_cases h : y = c
  · simp [unescRepl, h]
  · simp [unescRepl, h]

theorem unescRepl_mapEsc (c : Char) (S : List Char) (hnd : S.Nodup) :
    ∀ (l : List Char), '\\' ∉ l →
    unescRepl c (mapEsc (escChar S) l) = mapEsc (escChar (S.erase c)) l := by
  intro l
  induction l with
  | nil => intro _; rfl
  | cons x t ih =>
    intro hl
    have hx : x ≠ '\\' := fun h => hl (h ▸ List.mem_cons_self x t)
    have ht : '\\' ∉ t := fun h => hl (List.mem_cons_of_mem x h)
    show unescRepl c (escChar S x ++ mapEsc (escChar S) t)
      = escChar (S.erase c) x ++ mapEsc (escChar (S.erase c)) t
    by_cases hmem : x ∈ S
    · have he : escChar S x = ['\\', x] := by simp [escChar, hmem]
      rw [he,
        show (['\\', x] ++ mapEsc (escChar S) t)
          = '\\' :: x :: mapEsc (escChar S) t from rfl,
        unescRepl_pair c x (mapEsc (escChar S) t)]
      by_cases hxc : x = c
      · rw [if_pos hxc, ih ht]
        have hout : x ∉ S.erase c := by
          rw [hxc]; exact List.Nodup.not_mem_erase hnd
        have he2 : escChar (S.erase c) x = [x] := by simp [escChar, hout]
        rw [he2]
        simp [hxc]
      · rw [if_neg hxc, unescRepl_cons c x (mapEsc (escChar S) t) hx, ih ht]
        have hin : x ∈ S.erase c := (List.mem_erase_of_ne hxc).mpr hmem
        have he2 : escChar (S.erase c) x = ['\\', x] := by simp [escChar, hin]
        rw [he2]
        rfl
    · have he : escChar S x = [x] := by simp [escChar, hmem]
      rw [he,
        show ([x] ++ mapEsc (escChar S) t) = x :: mapEsc (escChar S) t
          from rfl,
        unescRepl_cons c x (mapEsc (escChar S) t) hx, ih ht]
      have hout : x ∉ S.erase c := fun h => hmem (List.mem_of_mem_erase h)
      have he2 : escChar (S.erase c) x = [x] := by simp [escChar, hout]
      rw [he2]
      rfl

theorem unescape_fold (cs : List Char) : ∀ (S l : List Char),
    S.Nodup → '\\' ∉ l →
    cs.foldl (fun acc c => unescRepl c acc) (mapEsc (escChar S) l)
      = mapEsc (escChar (cs.foldl (fun s c => s.erase c) S)) l := by
  induction cs with
  | nil => intro S l _ _; rfl
  | cons c rest ih =>
    intro S l hnd hl
    show rest.foldl (fun acc c => unescRepl c acc)
      (unescRepl c (mapEsc (escChar S) l)) = _
    rw [unescRepl_mapEsc c S hnd l hl]
    exact ih (S.erase c) l (List.Nodup.erase c hnd) hl

/-- C2: for every input text containing only characters from the reserved
set and ordinary (non-reserved, non-backslash) characters, applying
escapeMarkdownV2 and then the inverse unescape (reversing each
substitution) reproduces the original text. -/
theorem escape_unescape_roundtrip (l : List Char)
    (h : ∀ c ∈ l, c ∈ RESERVED ∨ (c ∉ RESERVED ∧ c ≠ '\\')) :
    unescapeMarkdownV2 (escapeMarkdownV2 l) = l := by
  have hl : '\\' ∉ l := by
    intro hm
    rcases h '\\' hm with hr | ⟨_, hne⟩
    · exact absurd hr (by decide)
    · exact hne rfl
  rw [escapeMarkdownV2_eq]
  show RESERVED.reverse.foldl (fun acc c => unescRepl c acc)
    (mapEsc (escChar RESERVED) l) = l
  rw [unescape_fold RESERVED.reverse RESERVED l (by decide) hl]
  rw [show RESERVED.reverse.foldl (fun s c => s.erase c) RESERVED = []
    by decide]
  exact mapEsc_escChar_nil l

theorem escape_unescape_roundtrip_witness :
    (∀ c ∈ ['a', '_', 'b', '.', '-', 'c', '!', '(', 'd', ')'],
      c ∈ RESERVED ∨ (c ∉ RESERVED ∧ c ≠ '\\')) ∧
    unescapeMarkdownV2
      (escapeMarkdownV2 ['a', '_', 'b', '.', '-', 'c', '!', '(', 'd', ')'])
      = ['a', '_', 'b', '.', '-', 'c', '!', '(', 'd', ')'] :=
  ⟨by decide, escape_unescape_roundtrip
    ['a', '_', 'b', '.', '-', 'c', '!', '(', 'd', ')'] (by decide)⟩

theorem precededOK_mapEsc : ∀ (l : List Char) (prev : Option Char),
    precededOK prev (mapEsc (escChar RESERVED) l) = true := by
  intro l
  induction l with
  | nil => intro prev; rfl
  | cons x t ih =>
    intro prev
    show precededOK prev
      (escChar RESERVED x ++ mapEsc (escChar RESERVED) t) = true
    by_cases hmem : x ∈ RESERVED
    · have he : escChar RESERVED x = ['\\', x] := by simp [escChar, hmem]
      rw [he]
      have hb : ('\\' : Char) ∉ RESERVED := by decide
      simp [precededOK, hb, hmem, ih]
    · have he : escChar RESERVED x = [x] := by simp [escChar, hmem]
      rw [he]
      simp [precededOK, hmem, ih]

/-- C3: in the output of escapeMarkdownV2 every occurrence of a reserved
character is immediately preceded by a backslash, for every input text;
the sequential global replacements leave no unescaped reserved character. -/
theorem escape_reserved_preceded_by_backslash (l : List Char) :
    precededOK none (escapeMarkdownV2 l) = true := by
  rw [escapeMarkdownV2_eq]
  exact precededOK_mapEsc l none

/-- Models the JS expression a || d for a string value a that may be
undefined; the empty string is falsy and falls through to the default. -/
def jsOrD (a : Option String) (d : String) : String :=
  match a with
  | some s => if s = "" then d else s
  | none => d

/-- Truthiness of an optional JS string value. -/
def strTruthy : Option String → Bool
  | none => false
  | some s => if s = "" then false else true

/-- The connection object of the host request, carrying the low-level
remote address. -/
structure Conn where
  remoteAddress : Option String

/-- The host HTTP request object as consumed by getRequest: a headers
mapping, the connection object, method, originalUrl, url and query. Every
part may be absent, modelling undefined. -/
structure Req where
  headers : Option (List (String × String))
  connection : Option Conn
  method : Option String
  originalUrl : Option String
  url : Option String
  query : Option (List (String × String))

/-- The JSON body returned by the geolocation service; each field may be
absent from the payload. -/
structure GeoData where
  status : Option String
  message : Option String
  city : Option String
  regionName : Option String
  country : Option String

/-- Behavior of the geolocation call: the promise resolves with a possibly
null body, or rejects with an error message. -/
inductive GeoOutcome where
  | resolved (data : Option GeoData)
  | rejected (message : String)

/-- Models JS template interpolation of a field that may be undefined. -/
def jsInterp (o : Option String) : String :=
  o.getD ("undefined")

/-- The branch on the geolocation response inside the try block of
getRequest: on success status the composed city, regionName, country
string; otherwise the Gagal string built from the message field. Reading
the message field of a null body throws, modelled as an error. -/
def geoTryBlock (data : Option GeoData) : Except String String :=
  match data with
  | some d =>
    if d.status = some ("success") then
      Except.ok (jsInterp d.city ++ ", " ++ jsInterp d.regionName ++ ", "
        ++ jsInterp d.country)
    else
      Except.ok ("Gagal mendapatkan lokasi: "
        ++ jsOrD d.message ("Error tidak diketahui dari ip-api.com"))
  | none => Except.error ("TypeError: Cannot read properties of null")

/-- The full location computation of getRequest: the try block around the
geolocation call, with the catch turning any rejection or thrown error
into the Error saat mengambil lokasi string. -/
def locate (geo : GeoOutcome) : String :=
  match geo with
  | GeoOutcome.resolved data =>
    match geoTryBlock data with
    | Except.ok loc => loc
    | Except.error e => "Error saat mengambil lokasi: " ++ e
  | GeoOutcome.rejected msg => "Error saat mengambil lokasi: " ++ msg

def jsonQuote (s : String) : String :=
  "\"" ++ s ++ "\""

/-- Models JSON.stringify(obj, null, 2) on a string-valued mapping: the
empty object prints as a bare brace pair, otherwise a two-space indented
multi-line object literal. -/
def jsonStringifyPretty (obj : List (String × String)) : String :=
  match obj with
  | [] => "\x7b\x7d"
  | entries =>
    "\x7b\n" ++ String.intercalate (",\n")
      (entries.map (fun p => "  " ++ jsonQuote p.1 ++ ": " ++ jsonQuote p.2))
      ++ "\n\x7d"

/-- A calendar date and time of day, the input of the timestamp format. -/
structure JsDate where
  day : Nat
  month : Nat
  year : Nat
  hour : Nat
  minute : Nat
  second : Nat

def pad2 (n : Nat) : String :=
  if n < 10 then "0" ++ toString n else toString n

/-- Models the runtime formatter new Date().toLocaleString with locale
id-ID and time zone Asia/Jakarta used for the timestamp field: day, month
and year separated by slashes, then a comma and the time of day. -/
def toLocaleStringIdID (d : JsDate) : String :=
  toString d.day ++ "/" ++ toString d.month ++ "/" ++ toString d.year
    ++ ", " ++ pad2 d.hour ++ "." ++ pad2 d.minute ++ "." ++ pad2 d.second

/-- The record returned by getRequest. -/
structure RequestSnapshot where
  ip : String
  userAgent : String
  method : String
  url : String
  query : String
  headers : String
  location : String
  timestamp : String

/-- Second and third operand of the ip precedence chain: reading
remoteAddress from an absent connection object throws, otherwise the
remote address with the Unknown IP fallback. -/
def resolveIpConn (req : Req) : Except String String :=
  match req.connection with
  | some conn => Except.ok (jsOrD conn.remoteAddress ("Unknown IP"))
  | none => Except.error ("TypeError: Cannot read properties of undefined")

/-- The ip precedence chain of getRequest: the x-forwarded-for header if
truthy, else the connection remote address, else the Unknown IP literal;
the connection object is only touched when the header is falsy. -/
def resolveIp (req : Req) (hdrs : List (String × String)) :
    Except String String :=
  match List.lookup ("x-forwarded-for") hdrs with
  | some s => if s = "" then resolveIpConn req else Except.ok s
  | none => resolveIpConn req

/-- The getRequest operation: reads the header fields (throwing when the
headers mapping itself is absent), serializes query and headers, computes
the timestamp and absorbs every geolocation outcome into the location
string. -/
def getRequest (req : Req) (geo : GeoOutcome) (date : JsDate) :
    Except String RequestSnapshot :=
  match req.headers with
  | none => Except.error ("TypeError: Cannot read properties of undefined")
  | some hdrs =>
    match resolveIp req hdrs with
    | Except.error e => Except.error e
    | Except.ok ip =>
      Except.ok
        ⟨ip,
         jsOrD (List.lookup ("user-agent") hdrs) ("Unknown User-Agent"),
         jsOrD req.method ("Unknown Method"),
         jsOrD req.originalUrl (jsOrD req.url ("Unknown URL")),
         (match req.query with
          | some q => jsonStringifyPretty q
          | none => "\x7b\x7d"),
         (match req.headers with
          | some h => jsonStringifyPretty h
          | none => "\x7b\x7d"),
         locate geo,
         toLocaleStringIdID date⟩

/-- The process-wide credentials read by sendTele. -/
structure TeleConfig where
  token : Option String
  chatid : Option String

/-- The JSON body of the messaging API response. -/
structure TeleData where
  ok : Bool
  description : Option String

/-- Behavior of the messaging API call: the promise resolves with a
possibly null body, or rejects with an error message and an optional
structured response body. -/
inductive TeleOutcome where
  | resolved (data : Option TeleData)
  | rejected (message : String) (body : Option String)

def logInfo (m : String) : String := "ℹ [INFO] " ++ m

def logSuccess (m : String) : String := "✔ [SUCCESS] " ++ m

def logWarn (m : String) : String := "⚠ [WARNING] " ++ m

def logError (m : String) : String := "✖ [ERROR] " ++ m

/-- The observable result of one sendTele invocation: the log lines it
emitted and, when an outbound call was issued, the text that was posted. -/
structure SendResult where
  logs : List String
  request : Option String

/-- The response handling inside the try block of sendTele: a truthy ok
field logs success, otherwise the error log with the description field or
its generic fallback; reading the ok field of a null body throws. -/
def sendTeleTry (outcome : TeleOutcome) :
    Except (String × Option String) (List String) :=
  match outcome with
  | TeleOutcome.resolved (some d) =>
    if d.ok then
      Except.ok [logSuccess ("Notifikasi Telegram berhasil terkirim!")]
    else
      Except.ok [logError ("Gagal mengirim notifikasi Telegram: "
        ++ jsOrD d.description ("Alasan tidak diketahui"))]
  | TeleOutcome.resolved none =>
    Except.error ("TypeError: Cannot read properties of undefined", none)
  | TeleOutcome.rejected msg body => Except.error (msg, body)

/-- The sendTele operation: a missing token or chat id is a logged no-op
before any call; otherwise the raw message is escaped, wrapped in the
code-block envelope and posted, and every rejection or thrown error of the
call is absorbed by the catch into error log lines. -/
def sendTele (cfg : TeleConfig) (rawMessage : String)
    (outcome : TeleOutcome) : Except String SendResult :=
  if !strTruthy cfg.token || !strTruthy cfg.chatid then
    Except.ok ⟨[logWarn ("Token bot Telegram atau Chat ID belum dikonfigurasi di global. Pesan tidak terkirim.")], none⟩
  else
    let fullText := "```\n" ++ String.mk (escapeMarkdownV2 rawMessage.data)
      ++ "\n```"
    match sendTeleTry outcome with
    | Except.ok ls =>
      Except.ok ⟨logInfo ("Mencoba mengirim notifikasi ke Telegram...") :: ls,
        some fullText⟩
    | Except.error (msg, body) =>
      Except.ok ⟨logInfo ("Mencoba mengirim notifikasi ke Telegram...")
        :: ("[ERROR TELEGRAM] Error saat mengirim pesan Telegram: " ++ msg)
        :: ((match body with
             | some b => [("[ERROR TELEGRAM RAW] Respons API Telegram: " ++ b)]
             | none => [])
          ++ [logError ("Notifikasi Telegram gagal terkirim karena kesalahan koneksi atau API.")]),
        some fullText⟩

theorem jsOrD_ne (a : Option String) (d : String) (hd : d ≠ "") :
    jsOrD a d ≠ "" := by
  match a with
  | none => exact hd
  | some s =>
    show (if s = "" then d else s) ≠ ""
    by_cases h : s = ""
    · rw [if_pos h]; exact hd
    · rw [if_neg h]; exact h

theorem append_ne_empty_left (s t : String) (hs : s ≠ "") : s ++ t ≠ "" := by
  intro h
  have hd := congrArg String.data h
  rw [String.data_append] at hd
  exact hs (String.ext (List.append_eq_nil.mp hd).1)

theorem resolveIp_ok (req : Req) (hdrs : List (String × String))
    (conn : Conn) (h2 : req.connection = some conn) :
    ∃ s, resolveIp req hdrs = Except.ok s ∧ s ≠ "" := by
  have hconn : resolveIpConn req
      = Except.ok (jsOrD conn.remoteAddress ("Unknown IP")) := by
    unfold resolveIpConn
    rw [h2]
  have hne : jsOrD conn.remoteAddress ("Unknown IP") ≠ "" :=
    jsOrD_ne _ _ (by decide)
  unfold resolveIp
  cases hx : List.lookup ("x-forwarded-for") hdrs with
  | none => simp only [hx]; exact ⟨_, hconn, hne⟩
  | some s =>
    simp only [hx]
    by_cases hs : s = ""
    · rw [if_pos hs]; exact ⟨_, hconn, hne⟩
    · rw [if_neg hs]; exact ⟨s, rfl, hs⟩

theorem resolveIp_ok_ne (req : Req) (hdrs : List (String × String))
    (s : String) (h : resolveIp req hdrs = Except.ok s) : s ≠ "" := by
  have hconn : ∀ v, resolveIpConn req = Except.ok v → v ≠ "" := by
    intro v hv
    unfold resolveIpConn at hv
    cases hc : req.connection with
    | none => rw [hc] at hv; exact absurd hv (by simp)
    | some conn =>
      rw [hc] at hv
      have : jsOrD conn.remoteAddress ("Unknown IP") = v :=
        Except.ok.inj hv
      exact this ▸ jsOrD_ne _ _ (by decide)
  unfold resolveIp at h
  cases hx : List.lookup ("x-forwarded-for") hdrs with
  | none => simp only [hx] at h; exact hconn s h
  | some w =>
    simp only [hx] at h
    by_cases hw : w = ""
    · rw [if_pos hw] at h; exact hconn s h
    · rw [if_neg hw] at h; exact (Except.ok.inj h) ▸ hw

theorem getRequest_inv (req : Req) (geo : GeoOutcome) (date : JsDate)
    (hdrs : List (String × String)) (snap : RequestSnapshot)
    (h1 : req.headers = some hdrs)
    (h : getRequest req geo date = Except.ok snap) :
    ∃ ip, resolveIp req hdrs = Except.ok ip ∧
      snap = ⟨ip,
        jsOrD (List.lookup ("user-agent") hdrs) ("Unknown User-Agent"),
        jsOrD req.method ("Unknown Method"),
        jsOrD req.originalUrl (jsOrD req.url ("Unknown URL")),
        (match req.query with
         | some q => jsonStringifyPretty q
         | none => "\x7b\x7d"),
        jsonStringifyPretty hdrs,
        locate geo,
        toLocaleStringIdID date⟩ := by
  unfold getRequest at h
  simp only [h1] at h
  cases hres : resolveIp req hdrs with
  | error e => simp only [hres] at h; exact absurd h (by simp)
  | ok ip =>
    simp only [hres] at h
    exact ⟨ip, rfl, (Except.ok.inj h).symm⟩

theorem getRequest_ok (req : Req) (geo : GeoOutcome) (date : JsDate)
    (hdrs : List (String × String)) (conn : Conn)
    (h1 : req.headers = some hdrs) (h2 : req.connection = some conn) :
    ∃ snap, getRequest req geo date = Except.ok snap ∧
      snap.location = locate geo := by
  obtain ⟨s, hip, _⟩ := resolveIp_ok req hdrs conn h2
  unfold getRequest
  simp only [h1, hip]
  exact ⟨_, rfl, rfl⟩

/-- Sample well-formed request used by concrete witnesses. -/
def sampleHdrs : List (String × String) :=
  [("user-agent", "TestAgent")]

def sampleConn : Conn := ⟨some ("10.0.0.1")⟩

def sampleReq : Req :=
  ⟨some sampleHdrs, some sampleConn, some ("GET"), some ("/admin"),
   some ("/admin"), none⟩

def sampleDate : JsDate := ⟨11, 10, 2026, 12, 30, 45⟩

/-- C1: for every request exposing a headers mapping and a connection
object, and for every behavior of the geolocation service and of the
messaging API, no error propagates to the caller: getRequest and sendTele
always resolve, absorbing every dependency failure into a fallback value
or a logged no-op. -/
theorem no_error_propagates (req : Req) (geo : GeoOutcome) (date : JsDate)
    (cfg : TeleConfig) (raw : String) (outcome : TeleOutcome)
    (hdrs : List (String × String)) (conn : Conn)
    (h1 : req.headers = some hdrs) (h2 : req.connection = some conn) :
    (∃ snap, getRequest req geo date = Except.ok snap) ∧
    (∃ r, sendTele cfg raw outcome = Except.ok r) := by
  constructor
  · obtain ⟨snap, hs, _⟩ := getRequest_ok req geo date hdrs conn h1 h2
    exact ⟨snap, hs⟩
  · unfold sendTele
    by_cases hc : (!strTruthy cfg.token || !strTruthy cfg.chatid) = true
    · rw [if_pos hc]; exact ⟨_, rfl⟩
    · rw [if_neg hc]
      cases ht : sendTeleTry outcome with
      | ok ls => simp only [ht]; exact ⟨_, rfl⟩
      | error p =>
        cases p with
        | mk msg body => simp only [ht]; exact ⟨_, rfl⟩

theorem no_error_propagates_witness :
    (sampleReq.headers = some sampleHdrs) ∧
    (sampleReq.connection = some sampleConn) ∧
    ((∃ snap, getRequest sampleReq (GeoOutcome.rejected ("timeout"))
        sampleDate = Except.ok snap) ∧
     (∃ r, sendTele ⟨none, none⟩ ("msg") (TeleOutcome.resolved none)
        = Except.ok r)) :=
  ⟨rfl, rfl, no_error_propagates sampleReq (GeoOutcome.rejected ("timeout"))
    sampleDate ⟨none, none⟩ ("msg") (TeleOutcome.resolved none)
    sampleHdrs sampleConn rfl rfl⟩

/-- C4: if the geolocation service responds with success status and
city, regionName and country fields, the resulting location string is
their comma-separated composition. -/
theorem location_success_composes (req : Req) (date : JsDate)
    (hdrs : List (String × String)) (conn : Conn) (d : GeoData)
    (city region country : String)
    (h1 : req.headers = some hdrs) (h2 : req.connection = some conn)
    (hs : d.status = some ("success")) (hc : d.city = some city)
    (hr : d.regionName = some region) (hco : d.country = some country) :
    ∃ snap,
      getRequest req (GeoOutcome.resolved (some d)) date = Except.ok snap
      ∧ snap.location = city ++ ", " ++ region ++ ", " ++ country := by
  obtain ⟨snap, hok, hloc⟩ :=
    getRequest_ok req (GeoOutcome.resolved (some d)) date hdrs conn h1 h2
  refine ⟨snap, hok, ?_⟩
  rw [hloc]
  simp [locate, geoTryBlock, hs, hc, hr, hco, jsInterp]

/-- The Jakarta example payload of the spec. -/
def jakartaData : GeoData :=
  ⟨some ("success"), none, some ("Jakarta"), some ("DKI Jakarta"),
   some ("Indonesia")⟩

theorem location_success_composes_witness :
    (sampleReq.headers = some sampleHdrs) ∧
    (jakartaData.status = some ("success")) ∧
    ∃ snap, getRequest sampleReq (GeoOutcome.resolved (some jakartaData))
        sampleDate = Except.ok snap
      ∧ snap.location = "Jakarta, DKI Jakarta, Indonesia" := by
  refine ⟨rfl, rfl, ?_⟩
  obtain ⟨snap, hok, hloc⟩ := location_success_composes sampleReq sampleDate
    sampleHdrs sampleConn jakartaData ("Jakarta") ("DKI Jakarta")
    ("Indonesia") rfl rfl rfl rfl rfl rfl
  exact ⟨snap, hok, by rw [hloc]; rfl⟩

/-- C5: if the geolocation service responds with a non-success status and
a non-empty message field, the location is the Gagal string carrying that
message, and the operation resolves without throwing. -/
theorem location_failure_contains_message (req : Req) (date : JsDate)
    (hdrs : List (String × String)) (conn : Conn) (d : GeoData) (m : String)
    (h1 : req.headers = some hdrs) (h2 : req.connection = some conn)
    (hs : d.status ≠ some ("success")) (hm : d.message = some m)
    (hne : m ≠ "") :
    ∃ snap,
      getRequest req (GeoOutcome.resolved (some d)) date = Except.ok snap
      ∧ snap.location = "Gagal mendapatkan lokasi: " ++ m := by
  obtain ⟨snap, hok, hloc⟩ :=
    getRequest_ok req (GeoOutcome.resolved (some d)) date hdrs conn h1 h2
  refine ⟨snap, hok, ?_⟩
  rw [hloc]
  simp [locate, geoTryBlock, hs, hm, jsOrD, hne]

/-- The invalid-query example payload of the spec. -/
def failData : GeoData :=
  ⟨some ("fail"), some ("invalid query"), none, none, none⟩

theorem location_failure_contains_message_witness :
    (failData.status ≠ some ("success")) ∧
    ∃ snap, getRequest sampleReq (GeoOutcome.resolved (some failData))
        sampleDate = Except.ok snap
      ∧ snap.location = "Gagal mendapatkan lokasi: invalid query" := by
  refine ⟨by decide, ?_⟩
  obtain ⟨snap, hok, hloc⟩ := location_failure_contains_message sampleReq
    sampleDate sampleHdrs sampleConn failData ("invalid query") rfl rfl
    (by decide) rfl (by decide)
  exact ⟨snap, hok, by rw [hloc]; rfl⟩

/-- C10: when the geolocation promise resolves with a null body, reading
the message field in the non-success branch throws, the surrounding catch
absorbs it, and getRequest resolves with a location carrying the
transport-failure prefix Error saat mengambil lokasi and not the
service-failure prefix Gagal mendapatkan lokasi. -/
theorem null_data_transport_prefix (req : Req) (date : JsDate)
    (hdrs : List (String × String)) (conn : Conn)
    (h1 : req.headers = some hdrs) (h2 : req.connection = some conn) :
    ∃ snap,
      getRequest req (GeoOutcome.resolved none) date = Except.ok snap
      ∧ snap.location = "Error saat mengambil lokasi: "
          ++ "TypeError: Cannot read properties of null"
      ∧ (∀ rest, snap.location ≠ "Gagal mendapatkan lokasi: " ++ rest) := by
  obtain ⟨snap, hok, hloc⟩ :=
    getRequest_ok req (GeoOutcome.resolved none) date hdrs conn h1 h2
  have hstr : snap.location = "Error saat mengambil lokasi: "
      ++ "TypeError: Cannot read properties of null" := by rw [hloc]; rfl
  refine ⟨snap, hok, hstr, ?_⟩
  intro rest heq
  rw [hstr] at heq
  have h3 := congrArg String.data heq
  simp only [String.data_append] at h3
  simp at h3

theorem null_data_transport_prefix_witness :
    (sampleReq.headers = some sampleHdrs) ∧
    ∃ snap, getRequest sampleReq (GeoOutcome.resolved none) sampleDate
        = Except.ok snap
      ∧ snap.location = "Error saat mengambil lokasi: "
          ++ "TypeError: Cannot read properties of null"
      ∧ (∀ rest, snap.location ≠ "Gagal mendapatkan lokasi: " ++ rest) :=
  ⟨rfl, null_data_transport_prefix sampleReq sampleDate sampleHdrs
    sampleConn rfl rfl⟩

/-- C6: when the process-wide bot token or chat id is absent (or empty,
hence falsy), sendTele logs the warning and resolves immediately without
issuing any outbound call: the result records no posted request. -/
theorem sendTele_missing_credentials_noop (cfg : TeleConfig) (raw : String)
    (outcome : TeleOutcome)
    (h : strTruthy cfg.token = false ∨ strTruthy cfg.chatid = false) :
    sendTele cfg raw outcome = Except.ok
      ⟨[logWarn ("Token bot Telegram atau Chat ID belum dikonfigurasi di global. Pesan tidak terkirim.")],
       none⟩ := by
  unfold sendTele
  have hc : (!strTruthy cfg.token || !strTruthy cfg.chatid) = true := by
    rcases h with h | h <;> simp [h]
  rw [if_pos hc]

theorem sendTele_missing_credentials_noop_witness :
    (strTruthy (TeleConfig.mk none (some ("chat"))).token = false ∨
     strTruthy (TeleConfig.mk none (some ("chat"))).chatid = false) ∧
    sendTele (TeleConfig.mk none (some ("chat"))) ("test")
        (TeleOutcome.resolved (some ⟨true, none⟩))
      = Except.ok
        ⟨[logWarn ("Token bot Telegram atau Chat ID belum dikonfigurasi di global. Pesan tidak terkirim.")],
         none⟩ :=
  ⟨Or.inl rfl, sendTele_missing_credentials_noop
    (TeleConfig.mk none (some ("chat"))) ("test")
    (TeleOutcome.resolved (some ⟨true, none⟩)) (Or.inl rfl)⟩

/-- C7: with credentials present, a truthy ok field in the messaging API
response makes sendTele log success and resolve; a non-truthy ok field
with a non-empty description makes it log the error carrying that
description and still resolve. -/
theorem sendTele_response_handling (cfg : TeleConfig) (raw : String)
    (desc : Option String)
    (ht : strTruthy cfg.token = true) (hc : strTruthy cfg.chatid = true) :
    (∃ r, sendTele cfg raw (TeleOutcome.resolved (some ⟨true, desc⟩))
        = Except.ok r
      ∧ logSuccess ("Notifikasi Telegram berhasil terkirim!") ∈ r.logs) ∧
    (∀ d, d ≠ "" →
      ∃ r, sendTele cfg raw (TeleOutcome.resolved (some ⟨false, some d⟩))
          = Except.ok r
        ∧ logError ("Gagal mengirim notifikasi Telegram: " ++ d)
            ∈ r.logs) := by
  have hcond : ¬((!strTruthy cfg.token || !strTruthy cfg.chatid) = true) :=
    by simp [ht, hc]
  constructor
  · refine ⟨⟨logInfo ("Mencoba mengirim notifikasi ke Telegram...")
      :: [logSuccess ("Notifikasi Telegram berhasil terkirim!")],
      some ("```\n" ++ String.mk (escapeMarkdownV2 raw.data) ++ "\n```")⟩,
      ?_, ?_⟩
    · unfold sendTele
      rw [if_neg hcond]
      simp [sendTeleTry]
    · exact List.mem_cons_of_mem _ (List.mem_cons_self _ _)
  · intro d hd
    refine ⟨⟨logInfo ("Mencoba mengirim notifikasi ke Telegram...")
      :: [logError ("Gagal mengirim notifikasi Telegram: " ++ d)],
      some ("```\n" ++ String.mk (escapeMarkdownV2 raw.data) ++ "\n```")⟩,
      ?_, ?_⟩
    · unfold sendTele
      rw [if_neg hcond]
      simp [sendTeleTry, jsOrD, hd]
    · exact List.mem_cons_of_mem _ (List.mem_cons_self _ _)

theorem sendTele_response_handling_witness :
    (strTruthy (TeleConfig.mk (some ("t")) (some ("c"))).token = true) ∧
    (strTruthy (TeleConfig.mk (some ("t")) (some ("c"))).chatid = true) ∧
    (∃ r, sendTele (TeleConfig.mk (some ("t")) (some ("c"))) ("hi")
        (TeleOutcome.resolved (some ⟨true, none⟩)) = Except.ok r
      ∧ logSuccess ("Notifikasi Telegram berhasil terkirim!") ∈ r.logs) ∧
    (∃ r, sendTele (TeleConfig.mk (some ("t")) (some ("c"))) ("hi")
        (TeleOutcome.resolved (some ⟨false, some ("chat not found")⟩))
        = Except.ok r
      ∧ logError ("Gagal mengirim notifikasi Telegram: "
          ++ "chat not found") ∈ r.logs) := by
  refine ⟨by decide, by decide, ?_, ?_⟩
  · exact (sendTele_response_handling (TeleConfig.mk (some ("t"))
      (some ("c"))) ("hi") none (by decide) (by decide)).1
  · exact (sendTele_response_handling (TeleConfig.mk (some ("t"))
      (some ("c"))) ("hi") none (by decide) (by decide)).2
      ("chat not found") (by decide)

theorem append_ne_empty_right (s t : String) (ht : t ≠ "") : s ++ t ≠ "" := by
  intro h
  have hd := congrArg String.data h
  rw [String.data_append] at hd
  exact ht (String.ext (List.append_eq_nil.mp hd).2)

theorem toDigitsCore_ne_nil (b : Nat) : ∀ (f n : Nat) (l : List Char),
    l ≠ [] ∨ 0 < f → Nat.toDigitsCore b f n l ≠ [] := by
  intro f
  induction f with
  | zero =>
    intro n l h
    rcases h with h | h
    · exact h
    · exact absurd h (by omega)
  | succ f ih =>
    intro n l _
    show Nat.toDigitsCore b (f + 1) n l ≠ []
    simp only [Nat.toDigitsCore]
    by_cases hz : n / b = 0
    · simp [hz]
    · simp only [hz, if_neg]
      exact ih (n / b) (Nat.digitChar (n % b) :: l)
        (Or.inl (by simp))

theorem natRepr_ne (n : Nat) : Nat.repr n ≠ "" := by
  intro h
  have h2 := congrArg String.data h
  have h3 : Nat.toDigitsCore 10 (n + 1) n [] = [] := h2
  exact toDigitsCore_ne_nil 10 (n + 1) n [] (Or.inr (Nat.succ_pos n)) h3

theorem pad2_ne (n : Nat) : pad2 n ≠ "" := by
  unfold pad2
  by_cases h : n < 10
  · rw [if_pos h]; exact append_ne_empty_left _ _ (by decide)
  · rw [if_neg h]; exact natRepr_ne n

theorem toLocaleStringIdID_ne (d : JsDate) : toLocaleStringIdID d ≠ "" :=
  append_ne_empty_right _ _ (pad2_ne d.second)

theorem jsonStringifyPretty_ne (obj : List (String × String)) :
    jsonStringifyPretty obj ≠ "" := by
  match obj with
  | [] => exact (by decide)
  | p :: rest => exact append_ne_empty_right _ _ (by decide)

theorem locate_ne_empty (geo : GeoOutcome) : locate geo ≠ "" := by
  match geo with
  | GeoOutcome.rejected msg => exact append_ne_empty_left _ _ (by decide)
  | GeoOutcome.resolved none => exact append_ne_empty_left _ _ (by decide)
  | GeoOutcome.resolved (some d) =>
    by_cases hs : d.status = some ("success")
    · have he : locate (GeoOutcome.resolved (some d))
          = jsInterp d.city ++ ", " ++ jsInterp d.regionName ++ ", "
            ++ jsInterp d.country := by
        simp [locate, geoTryBlock, hs]
      rw [he]
      exact append_ne_empty_left _ _ (append_ne_empty_right _ _ (by decide))
    · have he : locate (GeoOutcome.resolved (some d))
          = "Gagal mendapatkan lokasi: "
            ++ jsOrD d.message ("Error tidak diketahui dari ip-api.com") := by
        simp [locate, geoTryBlock, hs]
      rw [he]
      exact append_ne_empty_left _ _ (by decide)

theorem append_ne_of_head (a s t : String) (c d : Char)
    (l1 l2 : List Char) (ha : a.data = c :: l1) (hb : t.data = d :: l2)
    (hcd : c ≠ d) : a ++ s ≠ t := by
  intro h
  have h1 := congrArg String.data h
  rw [String.data_append, ha, hb, List.cons_append] at h1
  injection h1 with h2 _
  exact hcd h2

theorem locate_ne_default (geo : GeoOutcome) :
    locate geo ≠ "Lokasi tidak diketahui" := by
  match geo with
  | GeoOutcome.rejected msg =>
    exact append_ne_of_head _ _ _ 'E' 'L' _ _ rfl rfl (by decide)
  | GeoOutcome.resolved none =>
    exact append_ne_of_head _ _ _ 'E' 'L' _ _ rfl rfl (by decide)
  | GeoOutcome.resolved (some d) =>
    by_cases hs : d.status = some ("success")
    · have he : locate (GeoOutcome.resolved (some d))
          = jsInterp d.city ++ ", " ++ jsInterp d.regionName ++ ", "
            ++ jsInterp d.country := by
        simp [locate, geoTryBlock, hs]
      rw [he]
      intro heq
      have h1 := congrArg String.data heq
      have h2 : (',' : Char) ∈ (jsInterp d.city ++ ", "
          ++ jsInterp d.regionName ++ ", " ++ jsInterp d.country).data := by
        simp only [String.data_append]
        refine List.mem_append.mpr (Or.inl ?_)
        refine List.mem_append.mpr (Or.inl ?_)
        refine List.mem_append.mpr (Or.inl ?_)
        refine List.mem_append.mpr (Or.inr ?_)
        decide
      rw [h1] at h2
      exact absurd h2 (by decide)
    · have he : locate (GeoOutcome.resolved (some d))
          = "Gagal mendapatkan lokasi: "
            ++ jsOrD d.message ("Error tidak diketahui dari ip-api.com") := by
        simp [locate, geoTryBlock, hs]
      rw [he]
      exact append_ne_of_head _ _ _ 'G' 'L' _ _ rfl rfl (by decide)

/-- C8 counterexample: at a concrete request whose geolocation source data
is absent (a null response body), the location field does not equal the
fallback literal Lokasi tidak diketahui; it carries the catch string
instead, refuting the claim that absent source data yields that literal. -/
theorem snapshot_fallback_counterexample :
    Except.map RequestSnapshot.location
        (getRequest sampleReq (GeoOutcome.resolved none) sampleDate)
      = Except.ok ("Error saat mengambil lokasi: TypeError: Cannot read properties of null")
    ∧ Except.map RequestSnapshot.location
        (getRequest sampleReq (GeoOutcome.resolved none) sampleDate)
      ≠ Except.ok ("Lokasi tidak diketahui") := by
  refine ⟨rfl, ?_⟩
  intro h
  rw [show Except.map RequestSnapshot.location
      (getRequest sampleReq (GeoOutcome.resolved none) sampleDate)
    = Except.ok ("Error saat mengambil lokasi: TypeError: Cannot read properties of null")
    from rfl] at h
  exact absurd (Except.ok.inj h) (by decide)

/-- C8 amended: every field of a returned snapshot is a non-empty string;
absent source data yields the Unknown fallback literals for ip, agent,
method and url, and the brace-pair literal for query and headers; the
location field, however, never equals the initial literal Lokasi tidak
diketahui, because both branches of the lookup and its catch always
overwrite it with a descriptive string. -/
theorem snapshot_fields_invariant (req : Req) (geo : GeoOutcome)
    (date : JsDate) (hdrs : List (String × String)) (snap : RequestSnapshot)
    (h1 : req.headers = some hdrs)
    (h : getRequest req geo date = Except.ok snap) :
    (snap.ip ≠ "" ∧ snap.userAgent ≠ "" ∧ snap.method ≠ "" ∧ snap.url ≠ ""
      ∧ snap.query ≠ "" ∧ snap.headers ≠ "" ∧ snap.location ≠ ""
      ∧ snap.timestamp ≠ "")
    ∧ (List.lookup ("x-forwarded-for") hdrs = none →
        req.connection = some ⟨none⟩ → snap.ip = "Unknown IP")
    ∧ (List.lookup ("user-agent") hdrs = none →
        snap.userAgent = "Unknown User-Agent")
    ∧ (req.method = none → snap.method = "Unknown Method")
    ∧ (req.originalUrl = none → req.url = none → snap.url = "Unknown URL")
    ∧ (req.query = none → snap.query = "\x7b\x7d")
    ∧ (req.headers = none → snap.headers = "\x7b\x7d")
    ∧ snap.location ≠ "Lokasi tidak diketahui" := by
  obtain ⟨ip, hres, hsnap⟩ := getRequest_inv req geo date hdrs snap h1 h
  subst hsnap
  refine ⟨⟨resolveIp_ok_ne req hdrs ip hres, jsOrD_ne _ _ (by decide),
    jsOrD_ne _ _ (by decide),
    jsOrD_ne _ _ (jsOrD_ne _ _ (by decide)), ?_,
    jsonStringifyPretty_ne hdrs, locate_ne_empty geo,
    toLocaleStringIdID_ne date⟩, ?_, ?_, ?_, ?_, ?_, ?_,
    locate_ne_default geo⟩
  · show (match req.query with
      | some q => jsonStringifyPretty q
      | none => "\x7b\x7d") ≠ ""
    cases hq : req.query with
    | none => exact (by decide)
    | some q => exact jsonStringifyPretty_ne q
  · intro hxff hconn
    unfold resolveIp at hres
    simp only [hxff] at hres
    unfold resolveIpConn at hres
    simp only [hconn] at hres
    exact (Except.ok.inj hres).symm
  · intro hua
    show jsOrD (List.lookup ("user-agent") hdrs) ("Unknown User-Agent")
      = "Unknown User-Agent"
    rw [hua]
    rfl
  · intro hm
    show jsOrD req.method ("Unknown Method") = "Unknown Method"
    rw [hm]
    rfl
  · intro ho hu
    show jsOrD req.originalUrl (jsOrD req.url ("Unknown URL"))
      = "Unknown URL"
    rw [ho, hu]
    rfl
  · intro hq
    show (match req.query with
      | some q => jsonStringifyPretty q
      | none => "\x7b\x7d") = "\x7b\x7d"
    rw [hq]
  · intro hh
    rw [h1] at hh
    exact absurd hh (by simp)

/-- Concrete snapshot produced for the sample request with a rejected
geolocation call. -/
def sampleSnapA : RequestSnapshot :=
  ⟨"10.0.0.1", "TestAgent", "GET", "/admin", "\x7b\x7d",
   "\x7b\n  \"user-agent\": \"TestAgent\"\n\x7d",
   "Error saat mengambil lokasi: x", "11/10/2026, 12.30.45"⟩

theorem snapshot_fields_invariant_witness :
    (sampleReq.headers = some sampleHdrs) ∧
    (getRequest sampleReq (GeoOutcome.rejected ("x")) sampleDate
      = Except.ok sampleSnapA) ∧
    ((sampleSnapA.ip ≠ "" ∧ sampleSnapA.userAgent ≠ ""
      ∧ sampleSnapA.method ≠ "" ∧ sampleSnapA.url ≠ ""
      ∧ sampleSnapA.query ≠ "" ∧ sampleSnapA.headers ≠ ""
      ∧ sampleSnapA.location ≠ "" ∧ sampleSnapA.timestamp ≠ "")
    ∧ (List.lookup ("x-forwarded-for") sampleHdrs = none →
        sampleReq.connection = some ⟨none⟩ → sampleSnapA.ip = "Unknown IP")
    ∧ (List.lookup ("user-agent") sampleHdrs = none →
        sampleSnapA.userAgent = "Unknown User-Agent")
    ∧ (sampleReq.method = none → sampleSnapA.method = "Unknown Method")
    ∧ (sampleReq.originalUrl = none → sampleReq.url = none →
        sampleSnapA.url = "Unknown URL")
    ∧ (sampleReq.query = none → sampleSnapA.query = "\x7b\x7d")
    ∧ (sampleReq.headers = none → sampleSnapA.headers = "\x7b\x7d")
    ∧ sampleSnapA.location ≠ "Lokasi tidak diketahui") :=
  ⟨rfl, rfl, snapshot_fields_invariant sampleReq (GeoOutcome.rejected ("x"))
    sampleDate sampleHdrs sampleSnapA rfl rfl⟩

/-- Request with no originalUrl and a url, showing the second source. -/
def reqA : Req :=
  ⟨some [], some sampleConn, none, none, some ("/via-url"), none⟩

/-- Request with distinct originalUrl and url values. -/
def reqB : Req :=
  ⟨some [], some sampleConn, none, some ("/orig"), some ("/other"), none⟩

/-- C9 counterexample: the path field is not resolved from a single source
with one fallback: it is not a function of originalUrl alone (at reqA the
url property supplies the value) and not a function of url alone (at reqB
the originalUrl property wins). -/
theorem path_single_source_counterexample :
    ¬(∀ (req : Req) (geo : GeoOutcome) (date : JsDate)
        (snap : RequestSnapshot),
        getRequest req geo date = Except.ok snap →
        snap.url = jsOrD req.originalUrl ("Unknown URL")) ∧
    ¬(∀ (req : Req) (geo : GeoOutcome) (date : JsDate)
        (snap : RequestSnapshot),
        getRequest req geo date = Except.ok snap →
        snap.url = jsOrD req.url ("Unknown URL")) := by
  constructor
  · intro hall
    obtain ⟨snap, hok, _⟩ := getRequest_ok reqA (GeoOutcome.resolved none)
      sampleDate [] sampleConn rfl rfl
    have hc := hall reqA (GeoOutcome.resolved none) sampleDate snap hok
    obtain ⟨ip, hres, hsnap⟩ := getRequest_inv reqA (GeoOutcome.resolved none)
      sampleDate [] snap rfl hok
    subst hsnap
    have hc2 : jsOrD reqA.originalUrl (jsOrD reqA.url ("Unknown URL"))
        = jsOrD reqA.originalUrl ("Unknown URL") := hc
    exact absurd hc2 (by decide)
  · intro hall
    obtain ⟨snap, hok, _⟩ := getRequest_ok reqB (GeoOutcome.resolved none)
      sampleDate [] sampleConn rfl rfl
    have hc := hall reqB (GeoOutcome.resolved none) sampleDate snap hok
    obtain ⟨ip, hres, hsnap⟩ := getRequest_inv reqB (GeoOutcome.resolved none)
      sampleDate [] snap rfl hok
    subst hsnap
    have hc2 : jsOrD reqB.originalUrl (jsOrD reqB.url ("Unknown URL"))
        = jsOrD reqB.url ("Unknown URL") := hc
    exact absurd hc2 (by decide)

/-- C9 amended: agent and method are each resolved from a single source
with one fallback literal; the path is resolved with precedence
originalUrl, then url, then the fallback literal Unknown URL. -/
theorem agent_method_path_resolution (req : Req) (geo : GeoOutcome)
    (date : JsDate) (hdrs : List (String × String)) (snap : RequestSnapshot)
    (h1 : req.headers = some hdrs)
    (h : getRequest req geo date = Except.ok snap) :
    snap.userAgent
      = jsOrD (List.lookup ("user-agent") hdrs) ("Unknown User-Agent")
    ∧ snap.method = jsOrD req.method ("Unknown Method")
    ∧ snap.url = jsOrD req.originalUrl (jsOrD req.url ("Unknown URL")) := by
  obtain ⟨ip, hres, hsnap⟩ := getRequest_inv req geo date hdrs snap h1 h
  subst hsnap
  exact ⟨rfl, rfl, rfl⟩

theorem agent_method_path_resolution_witness :
    (sampleReq.headers = some sampleHdrs) ∧
    (getRequest sampleReq (GeoOutcome.rejected ("x")) sampleDate
      = Except.ok sampleSnapA) ∧
    (sampleSnapA.userAgent
      = jsOrD (List.lookup ("user-agent") sampleHdrs) ("Unknown User-Agent")
    ∧ sampleSnapA.method = jsOrD sampleReq.method ("Unknown Method")
    ∧ sampleSnapA.url
      = jsOrD sampleReq.originalUrl (jsOrD sampleReq.url ("Unknown URL"))) :=
  ⟨rfl, rfl, agent_method_path_resolution sampleReq
    (GeoOutcome.rejected ("x")) sampleDate sampleHdrs sampleSnapA rfl rfl⟩
